import Mathlib

/-!
Verification development for the Flutter Windows OpenGL compositor
(`shell/platform/windows/compositor_opengl.cc`).

The compositor is embedded shallowly:

* Collaborators (the engine's surface manager, the attached view, the
  function-table resolver) appear as an `Env` record of boolean outcomes
  and query results, following the collaborator contracts.
* GPU calls are recorded in an event trace (`Ev`), and the GPU object /
  binding state that those calls mutate is an explicit `GpuState`.
* `FML_DCHECK` failures are modelled as a `fatal` outcome (debug-build
  assertion semantics): execution aborts with no further effects.
* Machine sizes are modelled as `Nat`.
-/

/-- OpenGL enum values, from `GLES3/gl3.h` and `GLES2/gl2ext.h`. -/
def GL_RGBA8 : Nat := 0x8058

def GL_BGRA8_EXT : Nat := 0x93A1

def GL_TEXTURE_2D : Nat := 0x0DE1

def GL_TEXTURE_MAG_FILTER : Nat := 0x2800

def GL_TEXTURE_MIN_FILTER : Nat := 0x2801

def GL_TEXTURE_WRAP_S : Nat := 0x2802

def GL_TEXTURE_WRAP_T : Nat := 0x2803

def GL_NEAREST : Nat := 0x2600

def GL_CLAMP_TO_EDGE : Nat := 0x812F

def GL_RGBA : Nat := 0x1908

def GL_UNSIGNED_BYTE : Nat := 0x1401

def GL_FRAMEBUFFER : Nat := 0x8D40

def GL_READ_FRAMEBUFFER : Nat := 0x8CA8

def GL_DRAW_FRAMEBUFFER : Nat := 0x8CA9

def GL_COLOR_ATTACHMENT0_EXT : Nat := 0x8CE0

def GL_COLOR_BUFFER_BIT : Nat := 0x4000

/-- Modelled from the spec: the driver version, with components
`(major, minor)` as in the capability query `GetVersion() → (major, minor)`;
the impeller version header is not part of this translation unit. -/
structure Version where
  major_version : Nat
  minor_version : Nat
deriving DecidableEq, Repr

/-- Modelled from the spec: the `IsAtLeast` comparison on driver versions
(lexicographic on major then minor). -/
def Version.IsAtLeast (v other : Version) : Bool :=
  decide (other.major_version < v.major_version) ||
    (decide (other.major_version = v.major_version) &&
      decide (other.minor_version ≤ v.minor_version))

/-- Modelled from the spec: capability data of the resolved function table —
a set of supported extension names and a driver version
(`impeller::DescriptionGLES`, not part of this translation unit). -/
structure DescriptionGLES where
  extensions : List String
  gl_version : Version
deriving DecidableEq, Repr

/-- Modelled from the spec: `HasExtension(name) → bool` membership query. -/
def DescriptionGLES.HasExtension (d : DescriptionGLES) (ext : String) : Bool :=
  d.extensions.contains ext

def DescriptionGLES.GetGlVersion (d : DescriptionGLES) : Version :=
  d.gl_version

/-- The vendor-neutral BGRA extension name queried by the negotiator. -/
def extTextureFormatBGRA8888 : String := "GL_EXT_texture_format_BGRA8888"

/-- The Apple-style BGRA extension name queried by the negotiator. -/
def appleTextureFormatBGRA8888 : String := "GL_APPLE_texture_format_BGRA8888"

/-- `GetSupportedTextureFormat` from `compositor_opengl.cc`: selects the
texture format from driver capability data. -/
def GetSupportedTextureFormat (description : DescriptionGLES) : Nat :=
  if description.HasExtension extTextureFormatBGRA8888 then
    GL_BGRA8_EXT
  else if description.HasExtension appleTextureFormatBGRA8888 &&
      (description.GetGlVersion).IsAtLeast (Version.mk 3 0) then
    GL_BGRA8_EXT
  else
    GL_RGBA8

/-- One recorded call to a GL entry point or a collaborator. -/
inductive Ev where
  | makeCurrent
  | genTexture (id : Nat)
  | genFramebuffer (id : Nat)
  | bindFramebuffer (target id : Nat)
  | bindTexture (target id : Nat)
  | texParameteri (target pname param : Nat)
  | texImage2D (target level internalformat width height border fmt ty pixels : Nat)
  | framebufferTexture2D (target attachment textarget texture level : Nat)
  | deleteFramebuffer (id : Nat)
  | deleteTexture (id : Nat)
  | blitFramebuffer (srcX0 srcY0 srcX1 srcY1 dstX0 dstY0 dstX1 dstY1 mask filter : Nat)
  | getFrameBufferId (width height : Nat)
  | swapBuffers
deriving DecidableEq, Repr

/-- The GPU object and binding state mutated by the compositor's GL calls.
`GenTextures`/`GenFramebuffers` hand out fresh names from a counter;
`Delete*` removes one occurrence of a name (a no-op on a dead name, as in
GL); `BindFramebuffer` on `GL_FRAMEBUFFER` sets both the read and the draw
binding. -/
structure GpuState where
  nextTextureId : Nat
  nextFramebufferId : Nat
  liveTextures : Multiset Nat
  liveFramebuffers : Multiset Nat
  boundReadFramebuffer : Nat
  boundDrawFramebuffer : Nat
  boundTexture : Nat
deriving DecidableEq

/-- The compositor's own state: `is_initialized_`, the resolved function
table `gl_` (carrying its capability description when present), and the
negotiated format `format_` (`none` until negotiation has run). -/
structure CompositorState where
  is_initialized_ : Bool
  gl_ : Option DescriptionGLES
  format_ : Option Nat
deriving DecidableEq, Repr

/-- Modelled from the spec: outcomes of the collaborators consumed by the
compositor — the context manager's `MakeCurrent`, the resolver's validity
check, the capability description, whether a view is attached, the view's
`GetFrameBufferId` answer, and the view's `SwapBuffers` result. -/
structure Env where
  make_current_ok : Bool
  proc_table_valid : Bool
  description : DescriptionGLES
  view_attached : Bool
  frame_buffer_id : Nat → Nat → Nat
  swap_buffers_ok : Bool

inductive FlutterBackingStoreType where
  | openGL
  | software
deriving DecidableEq, Repr

inductive FlutterOpenGLTargetType where
  | texture
  | framebuffer
deriving DecidableEq, Repr

inductive FlutterLayerContentType where
  | backingStore
  | platformView
deriving DecidableEq, Repr

/-- The metadata for an OpenGL framebuffer backing store
(`FramebufferBackingStore` in `compositor_opengl.cc`). -/
structure FramebufferBackingStore where
  framebuffer_id : Nat
  texture_id : Nat
deriving DecidableEq, Repr

/-- The descriptor handed back to the embedder by `CreateBackingStore`:
kind, target mode, framebuffer name, declared format and the user-data
metadata pointer. -/
structure FlutterBackingStore where
  ty : FlutterBackingStoreType
  open_gl_ty : FlutterOpenGLTargetType
  framebuffer_name : Nat
  framebuffer_target : Nat
  user_data : FramebufferBackingStore
deriving DecidableEq, Repr

/-- The creation request: `config.size`. -/
structure FlutterBackingStoreConfig where
  width : Nat
  height : Nat
deriving DecidableEq, Repr

/-- One presentation layer: content kind, its backing store, and its size. -/
structure FlutterLayer where
  ty : FlutterLayerContentType
  backing_store : FlutterBackingStore
  width : Nat
  height : Nat
deriving DecidableEq, Repr

/-- Result of `Initialize`: a fatal assertion, or a boolean result with the
new compositor state and a call trace. -/
inductive InitResult where
  | fatal
  | ret (ok : Bool) (state : CompositorState) (trace : List Ev)
deriving DecidableEq, Repr

/-- Result of `CreateBackingStore`: a fatal assertion, failure (with the
state after the failed lazy initialization, the unchanged GPU state and
the trace), or success (descriptor, states, trace). -/
inductive CreateResult where
  | fatal
  | fail (state : CompositorState) (gpu : GpuState) (trace : List Ev)
  | success (store : FlutterBackingStore) (state : CompositorState)
      (gpu : GpuState) (trace : List Ev)
deriving DecidableEq

/-- Result of `CollectBackingStore`. -/
inductive CollectResult where
  | fatal
  | ret (ok : Bool) (gpu : GpuState) (trace : List Ev)
deriving DecidableEq

/-- Result of `Present`. -/
inductive PresentResult where
  | fatal
  | ret (ok : Bool) (gpu : GpuState) (trace : List Ev)
deriving DecidableEq

/-- `CompositorOpenGL::Initialize`: `FML_DCHECK(!is_initialized_)`; make the
context current; resolve the function table and discard it if invalid;
negotiate the format; mark initialized. -/
def CompositorOpenGL.Initialize (env : Env) (s : CompositorState) : InitResult :=
  if s.is_initialized_ then
    .fatal
  else if !env.make_current_ok then
    .ret false s [.makeCurrent]
  else if !env.proc_table_valid then
    .ret false { s with gl_ := none } [.makeCurrent]
  else
    .ret true
      { is_initialized_ := true
        gl_ := some env.description
        format_ := some (GetSupportedTextureFormat env.description) }
      [.makeCurrent]

/-- The allocation body of `CompositorOpenGL::CreateBackingStore` (the code
after the lazy-initialization guard): generate a texture and a framebuffer,
bind, configure and size the texture, attach it, and fill the result
descriptor. -/
def allocBackingStore (s : CompositorState) (g : GpuState)
    (config : FlutterBackingStoreConfig) :
    FlutterBackingStore × GpuState × List Ev :=
  let texture_id := g.nextTextureId
  let framebuffer_id := g.nextFramebufferId
  let g' : GpuState :=
    { nextTextureId := g.nextTextureId + 1
      nextFramebufferId := g.nextFramebufferId + 1
      liveTextures := texture_id ::ₘ g.liveTextures
      liveFramebuffers := framebuffer_id ::ₘ g.liveFramebuffers
      boundReadFramebuffer := framebuffer_id
      boundDrawFramebuffer := framebuffer_id
      boundTexture := 0 }
  let store : FlutterBackingStore :=
    { ty := .openGL
      open_gl_ty := .framebuffer
      framebuffer_name := framebuffer_id
      framebuffer_target := s.format_.getD 0
      user_data := { framebuffer_id := framebuffer_id, texture_id := texture_id } }
  (store, g',
    [ .genTexture texture_id
    , .genFramebuffer framebuffer_id
    , .bindFramebuffer GL_FRAMEBUFFER framebuffer_id
    , .bindTexture GL_TEXTURE_2D texture_id
    , .texParameteri GL_TEXTURE_2D GL_TEXTURE_MIN_FILTER GL_NEAREST
    , .texParameteri GL_TEXTURE_2D GL_TEXTURE_MAG_FILTER GL_NEAREST
    , .texParameteri GL_TEXTURE_2D GL_TEXTURE_WRAP_S GL_CLAMP_TO_EDGE
    , .texParameteri GL_TEXTURE_2D GL_TEXTURE_WRAP_T GL_CLAMP_TO_EDGE
    , .texImage2D GL_TEXTURE_2D 0 GL_RGBA8 config.width config.height 0
        GL_RGBA GL_UNSIGNED_BYTE 0
    , .bindTexture GL_TEXTURE_2D 0
    , .framebufferTexture2D GL_FRAMEBUFFER GL_COLOR_ATTACHMENT0_EXT
        GL_TEXTURE_2D texture_id 0 ])

/-- `CompositorOpenGL::CreateBackingStore`: lazily initialize if needed,
fail if that fails, otherwise allocate the backing store. -/
def CompositorOpenGL.CreateBackingStore (env : Env) (s : CompositorState)
    (g : GpuState) (config : FlutterBackingStoreConfig) : CreateResult :=
  if !s.is_initialized_ then
    match CompositorOpenGL.Initialize env s with
    | .fatal => .fatal
    | .ret false s' tr => .fail s' g tr
    | .ret true s' tr =>
      let r := allocBackingStore s' g config
      .success r.1 s' r.2.1 (tr ++ r.2.2)
  else
    let r := allocBackingStore s g config
    .success r.1 s r.2.1 r.2.2

/-- `CompositorOpenGL::CollectBackingStore`: assert initialization and the
descriptor's kind/target mode, then delete the framebuffer and the texture
recorded in the user data. -/
def CompositorOpenGL.CollectBackingStore (s : CompositorState) (g : GpuState)
    (store : FlutterBackingStore) : CollectResult :=
  if !s.is_initialized_ then
    .fatal
  else if store.ty ≠ .openGL then
    .fatal
  else if store.open_gl_ty ≠ .framebuffer then
    .fatal
  else
    .ret true
      { g with
          liveFramebuffers := g.liveFramebuffers.erase store.user_data.framebuffer_id
          liveTextures := g.liveTextures.erase store.user_data.texture_id }
      [ .deleteFramebuffer store.user_data.framebuffer_id
      , .deleteTexture store.user_data.texture_id ]

/-- `CompositorOpenGL::Present`: assert initialization, the single-layer
contract and the layer's backing-store kind; fail when no view is attached;
request the destination render target at the layer's size; make the context
current; bind source and destination; blit; swap. -/
def CompositorOpenGL.Present (env : Env) (s : CompositorState) (g : GpuState)
    (layers : List FlutterLayer) : PresentResult :=
  if !s.is_initialized_ then
    .fatal
  else if layers.length ≠ 1 then
    .fatal
  else
    match layers with
    | [] => .fatal
    | layer :: _ =>
      if layer.ty ≠ .backingStore then
        .fatal
      else if layer.backing_store.ty ≠ .openGL then
        .fatal
      else if layer.backing_store.open_gl_ty ≠ .framebuffer then
        .fatal
      else if !env.view_attached then
        .ret false g []
      else
        let width := layer.width
        let height := layer.height
        let destination_id := env.frame_buffer_id width height
        let source_id := layer.backing_store.framebuffer_name
        if !env.make_current_ok then
          .ret false g [.getFrameBufferId width height, .makeCurrent]
        else
          .ret env.swap_buffers_ok
            { g with
                boundReadFramebuffer := source_id
                boundDrawFramebuffer := destination_id }
            [ .getFrameBufferId width height
            , .makeCurrent
            , .bindFramebuffer GL_READ_FRAMEBUFFER source_id
            , .bindFramebuffer GL_DRAW_FRAMEBUFFER destination_id
            , .blitFramebuffer 0 0 width height 0 0 width height
                GL_COLOR_BUFFER_BIT GL_NEAREST
            , .swapBuffers ]

/-- Whether a create result is a success. -/
def CreateResult.isSuccess : CreateResult → Bool
  | .success _ _ _ _ => true
  | _ => false

/-- The GPU state after a successful create, if any. -/
def CreateResult.gpuAfter : CreateResult → Option GpuState
  | .success _ _ g _ => some g
  | _ => none

/-- Whether a collect result is a non-fatal `true` return. -/
def CollectResult.returnedTrue : CollectResult → Bool
  | .ret true _ _ => true
  | _ => false

/-- Run a sequence of `CreateBackingStore` calls, threading the GPU state
and accumulating the returned descriptors; stops if a call does not
succeed. -/
def runCreates (env : Env) (s : CompositorState) :
    GpuState → List FlutterBackingStoreConfig →
    GpuState × List FlutterBackingStore
  | g, [] => (g, [])
  | g, c :: cs =>
    match CompositorOpenGL.CreateBackingStore env s g c with
    | .success store _ g' _ =>
      let r := runCreates env s g' cs
      (r.1, store :: r.2)
    | _ => (g, [])

/-- Run a sequence of `CollectBackingStore` calls, threading the GPU state;
stops on a fatal assertion. -/
def runCollects (s : CompositorState) :
    GpuState → List FlutterBackingStore → GpuState
  | g, [] => g
  | g, st :: sts =>
    match CompositorOpenGL.CollectBackingStore s g st with
    | .ret _ g' _ => runCollects s g' sts
    | .fatal => g

/-- The format-selection policy as the spec states it, written over the
same capability data, for comparison with the code's negotiator. -/
def specFormatPolicy (d : DescriptionGLES) : Nat :=
  if d.HasExtension extTextureFormatBGRA8888 then GL_BGRA8_EXT
  else if d.HasExtension appleTextureFormatBGRA8888 &&
      (d.GetGlVersion).IsAtLeast (Version.mk 3 0) then GL_BGRA8_EXT
  else GL_RGBA8

/-- C1: for every capability set, the negotiator returns BGRA8 when the
vendor-neutral BGRA extension is present; otherwise BGRA8 when the
Apple-style BGRA extension is present and the version is at least 3.0;
otherwise RGBA8. -/
theorem c1_format_negotiator (d : DescriptionGLES) :
    (d.HasExtension extTextureFormatBGRA8888 = true →
      GetSupportedTextureFormat d = GL_BGRA8_EXT) ∧
    (d.HasExtension extTextureFormatBGRA8888 = false →
      d.HasExtension appleTextureFormatBGRA8888 = true →
      (d.GetGlVersion).IsAtLeast (Version.mk 3 0) = true →
      GetSupportedTextureFormat d = GL_BGRA8_EXT) ∧
    (d.HasExtension extTextureFormatBGRA8888 = false →
      (d.HasExtension appleTextureFormatBGRA8888 = false ∨
        (d.GetGlVersion).IsAtLeast (Version.mk 3 0) = false) →
      GetSupportedTextureFormat d = GL_RGBA8) := by
  refine ⟨fun h1 => ?_, fun h1 h2 h3 => ?_, fun h1 h2 => ?_⟩
  · simp [GetSupportedTextureFormat, h1]
  · simp [GetSupportedTextureFormat, h1, h2, h3]
  · rcases h2 with h2 | h2 <;> simp [GetSupportedTextureFormat, h1, h2]

/-- C1 witness: a capability set with only the Apple-style extension at
version 3.0 negotiates BGRA8. -/
theorem c1_format_negotiator_witness :
    (DescriptionGLES.mk [appleTextureFormatBGRA8888] (Version.mk 3 0)).HasExtension
        extTextureFormatBGRA8888 = false ∧
    GetSupportedTextureFormat
        (DescriptionGLES.mk [appleTextureFormatBGRA8888] (Version.mk 3 0)) =
      GL_BGRA8_EXT :=
  ⟨by decide,
    (c1_format_negotiator
        (DescriptionGLES.mk [appleTextureFormatBGRA8888] (Version.mk 3 0))).2.1
      (by decide) (by decide) (by decide)⟩

/-- When the compositor is already initialized, `CreateBackingStore` is
exactly the allocation body: it succeeds, leaves the compositor state
untouched and performs the allocation's GPU effects. -/
theorem createBackingStore_initialized (env : Env) (s : CompositorState)
    (g : GpuState) (config : FlutterBackingStoreConfig)
    (hs : s.is_initialized_ = true) :
    CompositorOpenGL.CreateBackingStore env s g config =
      .success (allocBackingStore s g config).1 s
        (allocBackingStore s g config).2.1 (allocBackingStore s g config).2.2 := by
  simp [CompositorOpenGL.CreateBackingStore, hs]

/-- A capability description used for concrete instantiations. -/
def descEx : DescriptionGLES :=
  { extensions := [extTextureFormatBGRA8888], gl_version := ⟨3, 0⟩ }

/-- A collaborator environment in which every collaborator succeeds. -/
def envInitEx : Env :=
  { make_current_ok := true
    proc_table_valid := true
    description := descEx
    view_attached := true
    frame_buffer_id := fun _ _ => 7
    swap_buffers_ok := true }

/-- A collaborator environment in which `MakeCurrent` fails. -/
def envFailEx : Env := { envInitEx with make_current_ok := false }

/-- A collaborator environment with no attached view. -/
def envNoViewEx : Env := { envInitEx with view_attached := false }

/-- The freshly constructed compositor state. -/
def sUninit : CompositorState := { is_initialized_ := false, gl_ := none, format_ := none }

/-- A compositor state after successful initialization against `descEx`. -/
def sInitEx : CompositorState :=
  { is_initialized_ := true, gl_ := some descEx, format_ := some GL_BGRA8_EXT }

/-- A baseline GPU state with no live objects. -/
def gEx : GpuState :=
  { nextTextureId := 1
    nextFramebufferId := 1
    liveTextures := 0
    liveFramebuffers := 0
    boundReadFramebuffer := 0
    boundDrawFramebuffer := 0
    boundTexture := 0 }

/-- A well-formed layer of non-square size 800×600. -/
def layerEx : FlutterLayer :=
  { ty := .backingStore
    backing_store :=
      { ty := .openGL
        open_gl_ty := .framebuffer
        framebuffer_name := 5
        framebuffer_target := GL_RGBA8
        user_data := { framebuffer_id := 5, texture_id := 4 } }
    width := 800
    height := 600 }

/-- C3: when the compositor is uninitialized, `CreateBackingStore` first
runs `Initialize`; if that fails it returns failure with the GPU state
untouched (no allocation) and no trace beyond the initialization attempt;
only if it succeeds does it proceed to the allocation body. -/
theorem c3_create_lazy_initialization (env : Env) (s : CompositorState)
    (g : GpuState) (config : FlutterBackingStoreConfig)
    (h : s.is_initialized_ = false) :
    (∀ s' tr, CompositorOpenGL.Initialize env s = .ret false s' tr →
      CompositorOpenGL.CreateBackingStore env s g config = .fail s' g tr) ∧
    (∀ s' tr, CompositorOpenGL.Initialize env s = .ret true s' tr →
      CompositorOpenGL.CreateBackingStore env s g config =
        .success (allocBackingStore s' g config).1 s'
          (allocBackingStore s' g config).2.1
          (tr ++ (allocBackingStore s' g config).2.2)) := by
  constructor
  · intro s' tr hinit
    simp [CompositorOpenGL.CreateBackingStore, h, hinit]
  · intro s' tr hinit
    simp [CompositorOpenGL.CreateBackingStore, h, hinit]

/-- C3 witness: with `MakeCurrent` failing, a create call on the fresh
compositor fails and allocates nothing. -/
theorem c3_create_lazy_initialization_witness :
    sUninit.is_initialized_ = false ∧
    CompositorOpenGL.CreateBackingStore envFailEx sUninit gEx ⟨4, 4⟩ =
      .fail sUninit gEx [.makeCurrent] :=
  ⟨rfl, (c3_create_lazy_initialization envFailEx sUninit gEx ⟨4, 4⟩ rfl).1
    sUninit [.makeCurrent] rfl⟩

/-- C4: a single-layer present with an attached view requests the
destination at exactly the layer's width and height and blits the rectangle
(0,0)–(width,height) onto the identical rectangle, color data only, with
nearest filtering, for every (also non-square) size. -/
theorem c4_present_geometry (env : Env) (s : CompositorState) (g : GpuState)
    (layer : FlutterLayer)
    (hs : s.is_initialized_ = true)
    (hl : layer.ty = .backingStore)
    (hb : layer.backing_store.ty = .openGL)
    (ho : layer.backing_store.open_gl_ty = .framebuffer)
    (hv : env.view_attached = true)
    (hm : env.make_current_ok = true) :
    CompositorOpenGL.Present env s g [layer] =
      .ret env.swap_buffers_ok
        { g with
            boundReadFramebuffer := layer.backing_store.framebuffer_name
            boundDrawFramebuffer := env.frame_buffer_id layer.width layer.height }
        [ .getFrameBufferId layer.width layer.height
        , .makeCurrent
        , .bindFramebuffer GL_READ_FRAMEBUFFER layer.backing_store.framebuffer_name
        , .bindFramebuffer GL_DRAW_FRAMEBUFFER (env.frame_buffer_id layer.width layer.height)
        , .blitFramebuffer 0 0 layer.width layer.height 0 0 layer.width layer.height
            GL_COLOR_BUFFER_BIT GL_NEAREST
        , .swapBuffers ] := by
  simp [CompositorOpenGL.Present, hs, hl, hb, ho, hv, hm]

/-- C4 witness: at the non-square size 800×600 the destination is requested
at 800×600 and the copy rectangle is (0,0)–(800,600) on both sides. -/
theorem c4_present_geometry_witness :
    envInitEx.view_attached = true ∧
    CompositorOpenGL.Present envInitEx sInitEx gEx [layerEx] =
      .ret true
        { gEx with boundReadFramebuffer := 5, boundDrawFramebuffer := 7 }
        [ .getFrameBufferId 800 600
        , .makeCurrent
        , .bindFramebuffer GL_READ_FRAMEBUFFER 5
        , .bindFramebuffer GL_DRAW_FRAMEBUFFER 7
        , .blitFramebuffer 0 0 800 600 0 0 800 600 GL_COLOR_BUFFER_BIT GL_NEAREST
        , .swapBuffers ] :=
  ⟨rfl, c4_present_geometry envInitEx sInitEx gEx layerEx rfl rfl rfl rfl rfl rfl⟩

/-- C5: the initialization state machine: on a failed `MakeCurrent` or an
invalid function table an uninitialized state (which, as at construction
and after any failed attempt, holds no function table) is returned
unchanged — still uninitialized, no table, negotiated format untouched —
so a later call may retry; on success the state becomes initialized with
the negotiated format; a second call on any initialized state hits the
fatal guard and performs nothing — no re-negotiation, no context
re-acquisition. -/
theorem c5_initialize_state_machine (env : Env) (s : CompositorState) :
    (s.is_initialized_ = false → s.gl_ = none →
      (env.make_current_ok = false ∨ env.proc_table_valid = false) →
      CompositorOpenGL.Initialize env s = .ret false s [.makeCurrent]) ∧
    (s.is_initialized_ = false → env.make_current_ok = true →
      env.proc_table_valid = true →
      CompositorOpenGL.Initialize env s =
        .ret true
          ⟨true, some env.description,
            some (GetSupportedTextureFormat env.description)⟩
          [.makeCurrent]) ∧
    (s.is_initialized_ = true → CompositorOpenGL.Initialize env s = .fatal) := by
  refine ⟨fun h0 hgl hf => ?_, fun h0 h1 h2 => ?_, fun h1 => ?_⟩
  · obtain ⟨b, glo, fo⟩ := s
    replace h0 : b = false := h0
    replace hgl : glo = none := hgl
    subst h0
    subst hgl
    rcases hf with hf | hf
    · simp [CompositorOpenGL.Initialize, hf]
    · cases hmc : env.make_current_ok <;>
        simp [CompositorOpenGL.Initialize, hf, hmc]
  · simp [CompositorOpenGL.Initialize, h0, h1, h2]
  · simp [CompositorOpenGL.Initialize, h1]

/-- C5 witness: on the fresh state with all collaborators succeeding,
initialization succeeds and fixes the negotiated format; a second
`Initialize` call on the exact state that success produced hits the fatal
guard. -/
theorem c5_initialize_state_machine_witness :
    sUninit.is_initialized_ = false ∧
    CompositorOpenGL.Initialize envInitEx sUninit =
      .ret true
        ⟨true, some envInitEx.description,
          some (GetSupportedTextureFormat envInitEx.description)⟩
        [.makeCurrent] ∧
    CompositorOpenGL.Initialize envInitEx
        ⟨true, some envInitEx.description,
          some (GetSupportedTextureFormat envInitEx.description)⟩ = .fatal :=
  ⟨rfl, (c5_initialize_state_machine envInitEx sUninit).2.1 rfl rfl rfl,
    (c5_initialize_state_machine envInitEx
      ⟨true, some envInitEx.description,
        some (GetSupportedTextureFormat envInitEx.description)⟩).2.2 rfl⟩

/-- C6: a present call with no attached view returns failure with an empty
trace — no `MakeCurrent` attempt and no GPU call — and the GPU state is
untouched. -/
theorem c6_present_no_view (env : Env) (s : CompositorState) (g : GpuState)
    (layer : FlutterLayer)
    (hs : s.is_initialized_ = true)
    (hl : layer.ty = .backingStore)
    (hb : layer.backing_store.ty = .openGL)
    (ho : layer.backing_store.open_gl_ty = .framebuffer)
    (hv : env.view_attached = false) :
    CompositorOpenGL.Present env s g [layer] = .ret false g [] := by
  simp [CompositorOpenGL.Present, hs, hl, hb, ho, hv]

/-- C6 witness: presenting `layerEx` with no view attached fails with no
recorded call. -/
theorem c6_present_no_view_witness :
    envNoViewEx.view_attached = false ∧
    CompositorOpenGL.Present envNoViewEx sInitEx gEx [layerEx] = .ret false gEx [] :=
  ⟨rfl, c6_present_no_view envNoViewEx sInitEx gEx layerEx rfl rfl rfl rfl rfl⟩

/-- C7: a successful create sizes the texture storage at exactly
width × height with internal format RGBA8 (for every negotiated format),
sets nearest min/mag filtering and clamp-to-edge wrapping on both axes,
and declares the negotiated format in the returned descriptor. -/
theorem c7_create_storage_and_declared_format (env : Env) (s : CompositorState)
    (g : GpuState) (config : FlutterBackingStoreConfig) (f : Nat)
    (hs : s.is_initialized_ = true) (hf : s.format_ = some f) :
    ∃ store g' tr,
      CompositorOpenGL.CreateBackingStore env s g config = .success store s g' tr ∧
      store.framebuffer_target = f ∧
      Ev.texImage2D GL_TEXTURE_2D 0 GL_RGBA8 config.width config.height 0
          GL_RGBA GL_UNSIGNED_BYTE 0 ∈ tr ∧
      Ev.texParameteri GL_TEXTURE_2D GL_TEXTURE_MIN_FILTER GL_NEAREST ∈ tr ∧
      Ev.texParameteri GL_TEXTURE_2D GL_TEXTURE_MAG_FILTER GL_NEAREST ∈ tr ∧
      Ev.texParameteri GL_TEXTURE_2D GL_TEXTURE_WRAP_S GL_CLAMP_TO_EDGE ∈ tr ∧
      Ev.texParameteri GL_TEXTURE_2D GL_TEXTURE_WRAP_T GL_CLAMP_TO_EDGE ∈ tr ∧
      (∀ t l i w h bo fm ty px, Ev.texImage2D t l i w h bo fm ty px ∈ tr →
        i = GL_RGBA8 ∧ w = config.width ∧ h = config.height) := by
  refine ⟨(allocBackingStore s g config).1, (allocBackingStore s g config).2.1,
    (allocBackingStore s g config).2.2,
    createBackingStore_initialized env s g config hs, ?_, ?_, ?_, ?_, ?_, ?_, ?_⟩
  · simp [allocBackingStore, hf]
  · simp [allocBackingStore]
  · simp [allocBackingStore]
  · simp [allocBackingStore]
  · simp [allocBackingStore]
  · simp [allocBackingStore]
  · intro t l i w h bo fm ty px hmem
    simp [allocBackingStore] at hmem
    obtain ⟨-, -, hi, hw, hh, -⟩ := hmem
    exact ⟨hi, hw, hh⟩

/-- C7 witness: creating an 800×600 store in the initialized state declares
the negotiated BGRA8 format while sizing RGBA8 storage at 800×600. -/
theorem c7_create_storage_and_declared_format_witness :
    sInitEx.format_ = some GL_BGRA8_EXT ∧
    ∃ store g' tr,
      CompositorOpenGL.CreateBackingStore envInitEx sInitEx gEx ⟨800, 600⟩ =
        .success store sInitEx g' tr ∧
      store.framebuffer_target = GL_BGRA8_EXT ∧
      Ev.texImage2D GL_TEXTURE_2D 0 GL_RGBA8 800 600 0
          GL_RGBA GL_UNSIGNED_BYTE 0 ∈ tr ∧
      Ev.texParameteri GL_TEXTURE_2D GL_TEXTURE_MIN_FILTER GL_NEAREST ∈ tr ∧
      Ev.texParameteri GL_TEXTURE_2D GL_TEXTURE_MAG_FILTER GL_NEAREST ∈ tr ∧
      Ev.texParameteri GL_TEXTURE_2D GL_TEXTURE_WRAP_S GL_CLAMP_TO_EDGE ∈ tr ∧
      Ev.texParameteri GL_TEXTURE_2D GL_TEXTURE_WRAP_T GL_CLAMP_TO_EDGE ∈ tr ∧
      (∀ t l i w h bo fm ty px, Ev.texImage2D t l i w h bo fm ty px ∈ tr →
        i = GL_RGBA8 ∧ w = 800 ∧ h = 600) :=
  ⟨rfl, c7_create_storage_and_declared_format envInitEx sInitEx gEx ⟨800, 600⟩
    GL_BGRA8_EXT rfl rfl⟩

/-- C8: a present whose layer count is not exactly one, or whose single
layer is not an OpenGL framebuffer-style backing store, hits the fatal
assertion: the result is `fatal`, so no blit is ever issued. -/
theorem c8_present_layer_contract (env : Env) (s : CompositorState)
    (g : GpuState) (layers : List FlutterLayer)
    (hs : s.is_initialized_ = true) :
    (layers.length ≠ 1 → CompositorOpenGL.Present env s g layers = .fatal) ∧
    (∀ layer, layers = [layer] →
      (layer.ty ≠ .backingStore ∨ layer.backing_store.ty ≠ .openGL ∨
        layer.backing_store.open_gl_ty ≠ .framebuffer) →
      CompositorOpenGL.Present env s g layers = .fatal) := by
  constructor
  · intro hlen
    cases layers with
    | nil => simp [CompositorOpenGL.Present, hs]
    | cons a l =>
      cases l with
      | nil => exact absurd rfl hlen
      | cons b l2 => simp [CompositorOpenGL.Present, hs]
  · rintro layer rfl hk
    by_cases h1 : layer.ty = .backingStore
    · by_cases h2 : layer.backing_store.ty = .openGL
      · by_cases h3 : layer.backing_store.open_gl_ty = .framebuffer
        · rcases hk with hk | hk | hk <;> exact absurd (by assumption) hk
        · simp [CompositorOpenGL.Present, hs, h1, h2, h3]
      · simp [CompositorOpenGL.Present, hs, h1, h2]
    · simp [CompositorOpenGL.Present, hs, h1]

/-- C8 witness: presenting zero layers in the initialized state is fatal. -/
theorem c8_present_layer_contract_witness :
    sInitEx.is_initialized_ = true ∧
    CompositorOpenGL.Present envInitEx sInitEx gEx [] = .fatal :=
  ⟨rfl, (c8_present_layer_contract envInitEx sInitEx gEx [] rfl).1 (by decide)⟩

/-- C9 counterexample: a successful create does change observable GPU
binding state — starting from draw-framebuffer binding 0, after the call
the draw-framebuffer binding points at the newly created framebuffer. -/
theorem c9_create_binding_counterexample :
    (CompositorOpenGL.CreateBackingStore envInitEx sInitEx gEx ⟨8, 6⟩).isSuccess
        = true ∧
    (CompositorOpenGL.CreateBackingStore envInitEx sInitEx gEx ⟨8, 6⟩).gpuAfter.map
        GpuState.boundDrawFramebuffer ≠ some gEx.boundDrawFramebuffer := by
  decide

/-- C9 (amended): a successful create's side effects are the allocation of
exactly one texture and one framebuffer — and, additionally, the
framebuffer binding (read and draw) is left on the newly created
framebuffer and the 2D texture binding is left at 0; nothing else changes. -/
theorem c9_create_side_effects (env : Env) (s : CompositorState)
    (g : GpuState) (config : FlutterBackingStoreConfig)
    (hs : s.is_initialized_ = true) :
    ∃ store tr,
      CompositorOpenGL.CreateBackingStore env s g config =
        .success store s
          { nextTextureId := g.nextTextureId + 1
            nextFramebufferId := g.nextFramebufferId + 1
            liveTextures := g.nextTextureId ::ₘ g.liveTextures
            liveFramebuffers := g.nextFramebufferId ::ₘ g.liveFramebuffers
            boundReadFramebuffer := g.nextFramebufferId
            boundDrawFramebuffer := g.nextFramebufferId
            boundTexture := 0 } tr ∧
      store.user_data =
        { framebuffer_id := g.nextFramebufferId, texture_id := g.nextTextureId } :=
  ⟨(allocBackingStore s g config).1, (allocBackingStore s g config).2.2,
    createBackingStore_initialized env s g config hs, rfl⟩

/-- C9 (amended) witness: the create at 8×6 from the baseline GPU state
yields exactly the predicted GPU state. -/
theorem c9_create_side_effects_witness :
    sInitEx.is_initialized_ = true ∧
    ∃ store tr,
      CompositorOpenGL.CreateBackingStore envInitEx sInitEx gEx ⟨8, 6⟩ =
        .success store sInitEx
          { nextTextureId := gEx.nextTextureId + 1
            nextFramebufferId := gEx.nextFramebufferId + 1
            liveTextures := gEx.nextTextureId ::ₘ gEx.liveTextures
            liveFramebuffers := gEx.nextFramebufferId ::ₘ gEx.liveFramebuffers
            boundReadFramebuffer := gEx.nextFramebufferId
            boundDrawFramebuffer := gEx.nextFramebufferId
            boundTexture := 0 } tr ∧
      store.user_data =
        { framebuffer_id := gEx.nextFramebufferId, texture_id := gEx.nextTextureId } :=
  ⟨rfl, c9_create_side_effects envInitEx sInitEx gEx ⟨8, 6⟩ rfl⟩

/-- C10: once the compositor is initialized, a create succeeds for every
request and a collect returns true for every descriptor of the kind create
produces — neither has a failure path after initialization. -/
theorem c10_no_failure_after_initialization (env : Env) (s : CompositorState)
    (g : GpuState) (config : FlutterBackingStoreConfig)
    (store : FlutterBackingStore)
    (hs : s.is_initialized_ = true)
    (h1 : store.ty = .openGL)
    (h2 : store.open_gl_ty = .framebuffer) :
    (CompositorOpenGL.CreateBackingStore env s g config).isSuccess = true ∧
    (CompositorOpenGL.CollectBackingStore s g store).returnedTrue = true := by
  constructor
  · rw [createBackingStore_initialized env s g config hs]
    rfl
  · simp [CompositorOpenGL.CollectBackingStore, hs, h1, h2,
      CollectResult.returnedTrue]

/-- C10 witness: a concrete create request and a concrete well-kinded
descriptor both report success in the initialized state. -/
theorem c10_no_failure_after_initialization_witness :
    sInitEx.is_initialized_ = true ∧
    (CompositorOpenGL.CreateBackingStore envInitEx sInitEx gEx ⟨2, 2⟩).isSuccess
        = true ∧
    (CompositorOpenGL.CollectBackingStore sInitEx gEx
        layerEx.backing_store).returnedTrue = true :=
  ⟨rfl,
    (c10_no_failure_after_initialization envInitEx sInitEx gEx ⟨2, 2⟩
      layerEx.backing_store rfl rfl rfl).1,
    (c10_no_failure_after_initialization envInitEx sInitEx gEx ⟨2, 2⟩
      layerEx.backing_store rfl rfl rfl).2⟩

/-- Running a list of creates in the initialized state: each call succeeds
and allocates exactly one texture and one framebuffer, so the live
multisets grow by exactly the ids recorded in the returned descriptors,
one descriptor per request, and every descriptor carries the OpenGL
framebuffer kind. -/
theorem runCreates_characterization (env : Env) (s : CompositorState)
    (hs : s.is_initialized_ = true) :
    ∀ (cs : List FlutterBackingStoreConfig) (g : GpuState),
      (runCreates env s g cs).1.liveTextures =
        ↑((runCreates env s g cs).2.map fun st => st.user_data.texture_id) +
          g.liveTextures ∧
      (runCreates env s g cs).1.liveFramebuffers =
        ↑((runCreates env s g cs).2.map fun st => st.user_data.framebuffer_id) +
          g.liveFramebuffers ∧
      (runCreates env s g cs).2.length = cs.length ∧
      ∀ st ∈ (runCreates env s g cs).2,
        st.ty = .openGL ∧ st.open_gl_ty = .framebuffer := by
  intro cs
  induction cs with
  | nil =>
    intro g
    simp [runCreates]
  | cons c cs ih =>
    intro g
    simp only [runCreates, createBackingStore_initialized env s g c hs]
    obtain ⟨ht, hf, hlen, hstores⟩ := ih (allocBackingStore s g c).2.1
    refine ⟨?_, ?_, ?_, ?_⟩
    · rw [List.map_cons, ← Multiset.cons_coe, Multiset.cons_add, ht]
      simp [allocBackingStore, Multiset.add_cons]
    · rw [List.map_cons, ← Multiset.cons_coe, Multiset.cons_add, hf]
      simp [allocBackingStore, Multiset.add_cons]
    · simpa using hlen
    · intro st hst
      rcases List.mem_cons.mp hst with h | h
      · subst h
        exact ⟨rfl, rfl⟩
      · exact hstores st h

/-- Running a list of collects in the initialized state over well-kinded
descriptors: each call deletes exactly the texture and the framebuffer
recorded in its descriptor, so the live multisets shrink by exactly those
ids. -/
theorem runCollects_characterization (s : CompositorState)
    (hs : s.is_initialized_ = true) :
    ∀ (sts : List FlutterBackingStore) (g : GpuState),
      (∀ st ∈ sts, st.ty = .openGL ∧ st.open_gl_ty = .framebuffer) →
      (runCollects s g sts).liveTextures =
        g.liveTextures - ↑(sts.map fun st => st.user_data.texture_id) ∧
      (runCollects s g sts).liveFramebuffers =
        g.liveFramebuffers - ↑(sts.map fun st => st.user_data.framebuffer_id) := by
  intro sts
  induction sts with
  | nil =>
    intro g _
    simp [runCollects]
  | cons st sts ih =>
    intro g hv
    obtain ⟨h1, h2⟩ := hv st (List.mem_cons_self st sts)
    have hcol : CompositorOpenGL.CollectBackingStore s g st =
        .ret true
          { g with
              liveFramebuffers :=
                g.liveFramebuffers.erase st.user_data.framebuffer_id
              liveTextures := g.liveTextures.erase st.user_data.texture_id }
          [ .deleteFramebuffer st.user_data.framebuffer_id
          , .deleteTexture st.user_data.texture_id ] := by
      simp [CompositorOpenGL.CollectBackingStore, hs, h1, h2]
    simp only [runCollects, hcol]
    obtain ⟨ht, hf⟩ := ih _ (fun st' h => hv st' (List.mem_cons_of_mem st h))
    constructor
    · rw [ht, List.map_cons, ← Multiset.cons_coe, Multiset.sub_cons]
    · rw [hf, List.map_cons, ← Multiset.cons_coe, Multiset.sub_cons]

/-- C2: for every baseline GPU state, every list of N create requests run
in the initialized state, and every pairing (permutation) of the N
returned descriptors with the N collect calls, the creates add exactly one
texture and one framebuffer each and the collects remove exactly those, so
the live object multisets return to the baseline. -/
theorem c2_create_collect_balance (env : Env) (s : CompositorState)
    (g : GpuState) (cs : List FlutterBackingStoreConfig)
    (perm : List FlutterBackingStore)
    (hs : s.is_initialized_ = true)
    (hperm : perm.Perm (runCreates env s g cs).2) :
    (runCollects s (runCreates env s g cs).1 perm).liveTextures =
      g.liveTextures ∧
    (runCollects s (runCreates env s g cs).1 perm).liveFramebuffers =
      g.liveFramebuffers ∧
    (runCreates env s g cs).1.liveTextures.card =
      g.liveTextures.card + cs.length ∧
    (runCreates env s g cs).1.liveFramebuffers.card =
      g.liveFramebuffers.card + cs.length := by
  obtain ⟨ht, hf, hlen, hstores⟩ := runCreates_characterization env s hs cs g
  have hv : ∀ st ∈ perm, st.ty = .openGL ∧ st.open_gl_ty = .framebuffer :=
    fun st h => hstores st (hperm.mem_iff.mp h)
  obtain ⟨ct, cf⟩ := runCollects_characterization s hs perm _ hv
  have hmt : (↑(perm.map fun st => st.user_data.texture_id) : Multiset Nat) =
      ↑((runCreates env s g cs).2.map fun st => st.user_data.texture_id) :=
    Multiset.coe_eq_coe.mpr (hperm.map _)
  have hmf : (↑(perm.map fun st => st.user_data.framebuffer_id) : Multiset Nat) =
      ↑((runCreates env s g cs).2.map fun st => st.user_data.framebuffer_id) :=
    Multiset.coe_eq_coe.mpr (hperm.map _)
  refine ⟨?_, ?_, ?_, ?_⟩
  · rw [ct, hmt, ht, add_tsub_cancel_left]
  · rw [cf, hmf, hf, add_tsub_cancel_left]
  · rw [ht]
    simp [hlen, Nat.add_comm]
  · rw [hf]
    simp [hlen, Nat.add_comm]

/-- The create requests used in the C2 witness. -/
def csEx : List FlutterBackingStoreConfig := [⟨2, 3⟩, ⟨4, 5⟩]

/-- C2 witness: two creates followed by the two collects in reverse order
return the baseline (empty) live-object multisets. -/
theorem c2_create_collect_balance_witness :
    sInitEx.is_initialized_ = true ∧
    ((runCreates envInitEx sInitEx gEx csEx).2.reverse).Perm
      (runCreates envInitEx sInitEx gEx csEx).2 ∧
    (runCollects sInitEx (runCreates envInitEx sInitEx gEx csEx).1
        ((runCreates envInitEx sInitEx gEx csEx).2.reverse)).liveTextures =
      gEx.liveTextures ∧
    (runCollects sInitEx (runCreates envInitEx sInitEx gEx csEx).1
        ((runCreates envInitEx sInitEx gEx csEx).2.reverse)).liveFramebuffers =
      gEx.liveFramebuffers :=
  ⟨rfl, List.reverse_perm _,
    (c2_create_collect_balance envInitEx sInitEx gEx csEx _ rfl
      (List.reverse_perm _)).1,
    (c2_create_collect_balance envInitEx sInitEx gEx csEx _ rfl
      (List.reverse_perm _)).2.1⟩
